import Mathlib

/-!
Verification of the command-recording layer of the DX12Engine repository
(`src/KAWAII/MiniKawaii/RHI/CommandContext.h`): context pooling
(`CommandContextManager::AllocateCommandContext` / `FreeCommandContext`,
`CommandContext::Begin`), resource-state transition and barrier batching
(`CommandContext::TransitionResource` / `FlushResourceBarriers`), and the
submission fence contract (`Flush` / `Finish`).

The pooling functions and `Begin` are implemented in the source and are
embedded from it directly.  `TransitionResource`, `FlushResourceBarriers`,
`Flush`, `Finish` and the bodies of `Initialize` / `Reset` are only declared
(or left as TODO stubs) in the source; those operations are modelled from the
specification, and each such definition says so in its doc comment.
-/

namespace DX12Engine

/-! ## D3D12 enumeration values (from d3d12.h, as used by the source) -/

/-- D3D12 resource-state bit flag: common/present state. -/
def D3D12_RESOURCE_STATE_COMMON : Nat := 0

/-- D3D12 resource-state bit flag. -/
def D3D12_RESOURCE_STATE_RENDER_TARGET : Nat := 0x4

/-- D3D12 resource-state bit flag. -/
def D3D12_RESOURCE_STATE_UNORDERED_ACCESS : Nat := 0x8

/-- D3D12 resource-state bit flag. -/
def D3D12_RESOURCE_STATE_NON_PIXEL_SHADER_RESOURCE : Nat := 0x40

/-- D3D12 resource-state bit flag. -/
def D3D12_RESOURCE_STATE_PIXEL_SHADER_RESOURCE : Nat := 0x80

/-- D3D12 resource-state bit flag. -/
def D3D12_RESOURCE_STATE_COPY_DEST : Nat := 0x400

/-- D3D12 resource-state bit flag. -/
def D3D12_RESOURCE_STATE_COPY_SOURCE : Nat := 0x800

/-- Embeds the macro VALID_COMPUTE_QUEUE_RESOURCE_STATES from
CommandContext.h lines 16-20: the only states a compute command list may
transition to. -/
def VALID_COMPUTE_QUEUE_RESOURCE_STATES : Nat :=
  D3D12_RESOURCE_STATE_UNORDERED_ACCESS |||
  D3D12_RESOURCE_STATE_NON_PIXEL_SHADER_RESOURCE |||
  D3D12_RESOURCE_STATE_COPY_DEST |||
  D3D12_RESOURCE_STATE_COPY_SOURCE

/-- D3D12_COMMAND_LIST_TYPE_DIRECT = 0 (graphics queue). -/
def D3D12_COMMAND_LIST_TYPE_DIRECT : Nat := 0

/-- D3D12_COMMAND_LIST_TYPE_BUNDLE = 1. -/
def D3D12_COMMAND_LIST_TYPE_BUNDLE : Nat := 1

/-- D3D12_COMMAND_LIST_TYPE_COMPUTE = 2. -/
def D3D12_COMMAND_LIST_TYPE_COMPUTE : Nat := 2

/-- D3D12_COMMAND_LIST_TYPE_COPY = 3. -/
def D3D12_COMMAND_LIST_TYPE_COPY : Nat := 3

/-- ContextPoolSize / AvailableContextSize, both defined as 4 in the
source (CommandContext.h lines 8-9): the per-type arrays of pools and
idle queues each have 4 entries, indexed by the command-list type. -/
def ContextPoolSize : Nat := 4

/-! ## Barrier data model -/

/-- Mode of a D3D12_RESOURCE_BARRIER transition entry: a full transition,
or one half of a split barrier (D3D12_RESOURCE_BARRIER_FLAG_BEGIN_ONLY /
END_ONLY). -/
inductive BarrierMode where
  | full
  | beginSplit
  | endSplit
  deriving DecidableEq, Repr

/-- One entry of the context's D3D12_RESOURCE_BARRIER buffer: the resource
(by id), its before and after states, and the barrier mode. -/
structure ResourceBarrier where
  resId : Nat
  stateBefore : Nat
  stateAfter : Nat
  mode : BarrierMode
  deriving DecidableEq, Repr

/-- A GpuResource's synchronization-state fields, as described at
CommandContext.h lines 74-79: m_UsageState is the authoritative current
state, m_TransitionState is the optional in-transition state set while a
split barrier is open. -/
structure GpuResource where
  resId : Nat
  m_UsageState : Nat
  m_TransitionState : Option Nat
  deriving DecidableEq, Repr

/-- The mutable state of a CommandContext: its command-list type, the
16-entry resource-barrier buffer (m_ResourceBarrierBuffer together with
m_numBarriersToFlush, represented as a list whose length is the pending
count), the batches already submitted by FlushResourceBarriers (recorded so
flushes can be counted), and the fields cleared by Reset: the current
allocator, the bound pipeline state, and the dynamic arena cursor.  m_ID is
the label set by Begin and m_CommandList records whether Initialize has
created the underlying command list. -/
structure CommandContext where
  m_Type : Nat
  m_ID : String
  m_CommandList : Bool
  m_CurrentAllocator : Option Nat
  m_ResourceBarrierBuffer : List ResourceBarrier
  flushedBatches : List (List ResourceBarrier)
  m_curPSO : Option Nat
  dynamicCursor : Nat
  deriving DecidableEq, Repr

/-- Error taxonomy of the specification relevant to TransitionResource. -/
inductive TransitionError where
  | unsupportedTransition
  deriving DecidableEq, Repr

/-- Result of a TransitionResource call: the updated context, the updated
resource, and the error if the call failed (in which case context and
resource are the unmodified inputs). -/
structure TransitionResult where
  ctx : CommandContext
  res : GpuResource
  err : Option TransitionError
  deriving DecidableEq, Repr

/-! ## Barrier batching and state transition -/

/-- Modelled from the spec: FlushResourceBarriers submits all buffered
barriers as a single batched synchronization call and clears the buffer
(the source only declares the function).  The submitted batch is appended
to flushedBatches; an empty buffer submits nothing. -/
def flushResourceBarriers (c : CommandContext) : CommandContext :=
  if c.m_ResourceBarrierBuffer = [] then c
  else { c with
    m_ResourceBarrierBuffer := [],
    flushedBatches := c.flushedBatches ++ [c.m_ResourceBarrierBuffer] }

/-- Modelled from the spec: if appending would exceed the fixed 16-entry
buffer capacity, the buffered barriers are flushed before the append. -/
def maybeFlushFull (c : CommandContext) : CommandContext :=
  if 16 ≤ c.m_ResourceBarrierBuffer.length then flushResourceBarriers c else c

/-- Append one barrier entry to the buffer. -/
def pushBarrier (c : CommandContext) (b : ResourceBarrier) : CommandContext :=
  { c with m_ResourceBarrierBuffer := c.m_ResourceBarrierBuffer ++ [b] }

/-- Modelled from the spec: when flushImmediate is true the buffered
barriers are flushed after the append. -/
def maybeFlushImmediate (c : CommandContext) (flushImmediate : Bool) : CommandContext :=
  if flushImmediate then flushResourceBarriers c else c

/-- Modelled from the spec: appending a barrier entry flushes first when
the append would exceed the 16-entry capacity, then appends, then flushes
again when flushImmediate is set. -/
def appendBarrier (c : CommandContext) (b : ResourceBarrier) (flushImmediate : Bool) :
    CommandContext :=
  maybeFlushImmediate (pushBarrier (maybeFlushFull c) b) flushImmediate

/-- Modelled from the spec, with the compute whitelist taken from the
source macro VALID_COMPUTE_QUEUE_RESOURCE_STATES: a compute context may
only request states contained in that mask, a copy context only
copy-source/copy-destination-class states; direct (graphics) and bundle
contexts accept any state. -/
def validForQueue (queueType : Nat) (s : Nat) : Bool :=
  if queueType = D3D12_COMMAND_LIST_TYPE_COMPUTE then
    s &&& VALID_COMPUTE_QUEUE_RESOURCE_STATES = s
  else if queueType = D3D12_COMMAND_LIST_TYPE_COPY then
    s &&& (D3D12_RESOURCE_STATE_COPY_DEST ||| D3D12_RESOURCE_STATE_COPY_SOURCE) = s
  else true

/-- Modelled from the spec: CommandContext::TransitionResource is only
declared in the source (CommandContext.h line 80 with the comment at lines
74-79).  If newState is illegal for the context's queue type the call
fails with UnsupportedTransition and leaves context and resource
unmodified.  Otherwise: if the resource's in-transition state equals
newState, an EndSplit entry is emitted, the in-transition state is cleared
and the authoritative state is set; if the authoritative state already
equals newState with no split pending, the call is a no-op; otherwise a
Full transition barrier from the authoritative state is appended and the
authoritative state is eagerly set to newState. -/
def transitionResource (c : CommandContext) (r : GpuResource) (newState : Nat)
    (flushImmediate : Bool) : TransitionResult :=
  if validForQueue c.m_Type newState then
    match r.m_TransitionState with
    | some s =>
      if s = newState then
        ⟨appendBarrier c ⟨r.resId, r.m_UsageState, newState, BarrierMode.endSplit⟩ flushImmediate,
         { r with m_UsageState := newState, m_TransitionState := none }, none⟩
      else
        ⟨appendBarrier c ⟨r.resId, r.m_UsageState, newState, BarrierMode.full⟩ flushImmediate,
         { r with m_UsageState := newState }, none⟩
    | none =>
      if r.m_UsageState = newState then ⟨c, r, none⟩
      else
        ⟨appendBarrier c ⟨r.resId, r.m_UsageState, newState, BarrierMode.full⟩ flushImmediate,
         { r with m_UsageState := newState }, none⟩
  else ⟨c, r, some TransitionError.unsupportedTransition⟩

/-- A sequence of TransitionResource calls on one context and one
resource: each list entry is the requested state and the flushImmediate
flag of that call. -/
def runTransitions : CommandContext → GpuResource → List (Nat × Bool) →
    CommandContext × GpuResource
  | c, r, [] => (c, r)
  | c, r, call :: rest =>
    let t := transitionResource c r call.1 call.2
    runTransitions t.ctx t.res rest

/-! ## Context pool (CommandContextManager) -/

/-- Embeds the CommandContext constructor (source lines 145-150): stores
the command-list type and a null command list; all other members start
empty. -/
def CommandContext.create (type : Nat) : CommandContext :=
  ⟨type, "", false, none, [], [], none, 0⟩

/-- Modelled from the spec: CommandContext::Initialize's body calls
CommandListManager::CreateNewCommandList, which is not under src; per the
spec it creates the underlying command list and acquires a fresh allocator
from the allocator pool (the allocator is identified by the given id). -/
def CommandContext.Initialize (c : CommandContext) (alloc : Nat) : CommandContext :=
  { c with m_CommandList := true, m_CurrentAllocator := some alloc }

/-- Modelled from the spec: CommandContext::Reset's body is a TODO stub in
the source (lines 163-168); per the spec it clears the barrier buffer,
detaches the prior allocator reference, clears the bound pipeline-state
reference and resets the dynamic arena cursor. -/
def CommandContext.Reset (c : CommandContext) : CommandContext :=
  { c with
    m_ResourceBarrierBuffer := [],
    m_CurrentAllocator := none,
    m_curPSO := none,
    dynamicCursor := 0 }

/-- The CommandContextManager's state: the owning per-type pools
(m_CommandContextPool, each entry the list of ids of contexts it owns),
the per-type idle queues (m_AvailableCommandContexts, front of the queue
at the head of the list), the storage of all contexts by id, and the next
fresh id.  Both arrays have ContextPoolSize = 4 entries, so they are
indexed by Fin 4. -/
structure CommandContextManager where
  m_CommandContextPool : Fin 4 → List Nat
  m_AvailableCommandContexts : Fin 4 → List Nat
  contexts : Nat → Option CommandContext
  nextId : Nat

/-- Embeds CommandContextManager::AllocateCommandContext (source lines
112-135).  The source indexes the 4-entry arrays with the raw type value
and performs no range check; an unrecognized type (not < 4) is an
out-of-bounds access, i.e. undefined behavior, modelled as none.  A
dangling id in the idle queue (impossible for well-formed states) is also
none.  For a recognized type: if the idle queue is empty a new context is
constructed, registered in the owning pool and Initialized; otherwise the
front context is popped and Reset. -/
def AllocateCommandContext (st : CommandContextManager) (type : Nat) :
    Option (CommandContextManager × Nat) :=
  if h : type < 4 then
    let t : Fin 4 := ⟨type, h⟩
    match st.m_AvailableCommandContexts t with
    | [] =>
      let cid := st.nextId
      let ctx := (CommandContext.create type).Initialize cid
      some ({ st with
        m_CommandContextPool :=
          Function.update st.m_CommandContextPool t (st.m_CommandContextPool t ++ [cid]),
        contexts := fun n => if n = cid then some ctx else st.contexts n,
        nextId := cid + 1 }, cid)
    | cid :: rest =>
      match st.contexts cid with
      | none => none
      | some ctx =>
        some ({ st with
          m_AvailableCommandContexts :=
            Function.update st.m_AvailableCommandContexts t rest,
          contexts := fun n => if n = cid then some ctx.Reset else st.contexts n }, cid)
  else none

/-- Embeds CommandContextManager::FreeCommandContext (source lines
137-141): pushes the used context onto the idle queue of its own type.
A null context (assert in the source) or a type that would index the
4-entry array out of bounds is modelled as none. -/
def FreeCommandContext (st : CommandContextManager) (cid : Nat) :
    Option CommandContextManager :=
  match st.contexts cid with
  | none => none
  | some ctx =>
    if h : ctx.m_Type < 4 then
      let t : Fin 4 := ⟨ctx.m_Type, h⟩
      some { st with
        m_AvailableCommandContexts :=
          Function.update st.m_AvailableCommandContexts t
            (st.m_AvailableCommandContexts t ++ [cid]) }
    else none

/-- Embeds CommandContext::Begin (source lines 170-176): allocates a
context of type D3D12_COMMAND_LIST_TYPE_DIRECT from the manager and sets
its id label. -/
def CommandContext.Begin (label : String) (st : CommandContextManager) :
    Option (CommandContextManager × Nat) :=
  match AllocateCommandContext st D3D12_COMMAND_LIST_TYPE_DIRECT with
  | none => none
  | some (st1, cid) =>
    match st1.contexts cid with
    | none => none
    | some ctx =>
      some ({ st1 with
        contexts := fun n => if n = cid then some { ctx with m_ID := label }
                             else st1.contexts n }, cid)

/-- Well-formedness of a manager state: every id in an idle queue refers
to a stored context whose m_Type is the queue's type (this is the
invariant behind the source's assert(context->m_Type == type)). -/
def MgrWF (st : CommandContextManager) : Prop :=
  ∀ t : Fin 4, ∀ cid ∈ st.m_AvailableCommandContexts t,
    ∃ c, st.contexts cid = some c ∧ c.m_Type = t.val

/-- The manager state at process start: empty pools, empty idle queues,
no contexts. -/
def emptyMgr : CommandContextManager :=
  ⟨fun _ => [], fun _ => [], fun _ => none, 0⟩

/-! ## Queue submission and fences -/

/-- Modelled from the spec: the Queue collaborator, reduced to the fence
counter it signs submissions with. -/
structure CommandQueue where
  lastFenceValue : Nat
  deriving DecidableEq, Repr

/-- Modelled from the spec: submitting a command list to a queue returns a
monotonically increasing fence value for this submission. -/
def CommandQueue.submitCmdList (q : CommandQueue) : CommandQueue × Nat :=
  (⟨q.lastFenceValue + 1⟩, q.lastFenceValue + 1)

/-- Modelled from the spec: CommandContext::Flush (only declared in the
source, line 64) implicitly flushes the resource barriers, submits the
recorded commands to the queue and returns the fence value obtained for
this submission, keeping the context recording. -/
def CommandContext.Flush (c : CommandContext) (q : CommandQueue) :
    CommandContext × CommandQueue × Nat :=
  (flushResourceBarriers c, (q.submitCmdList).1, (q.submitCmdList).2)

/-- Modelled from the spec: CommandContext::Finish (only declared in the
source, line 66) submits exactly like Flush — flushing remaining barriers
and obtaining the next fence value — and additionally ends the recording
session (the return of the context to the pool is FreeCommandContext,
embedded above); with releaseDynamic the dynamic arena is returned
immediately. -/
def CommandContext.Finish (c : CommandContext) (q : CommandQueue)
    (releaseDynamic : Bool) : CommandContext × CommandQueue × Nat :=
  let p := CommandContext.Flush c q
  (if releaseDynamic then { p.1 with dynamicCursor := 0 } else p.1, p.2.1, p.2.2)

/-- The fence values returned by a sequence of submissions on one queue:
each list entry is the context being submitted and whether the submission
is a Finish (true) or a Flush (false). -/
def submissionFences : CommandQueue → List (CommandContext × Bool) → List Nat
  | _, [] => []
  | q, s :: rest =>
    let t := if s.2 then s.1.Finish q true else s.1.Flush q
    t.2.2 :: submissionFences t.2.1 rest

/-! ## Helper lemmas -/

theorem flushResourceBarriers_mType (c : CommandContext) :
    (flushResourceBarriers c).m_Type = c.m_Type := by
  unfold flushResourceBarriers; split <;> rfl

theorem maybeFlushFull_mType (c : CommandContext) :
    (maybeFlushFull c).m_Type = c.m_Type := by
  unfold maybeFlushFull; split <;> simp [flushResourceBarriers_mType]

theorem maybeFlushImmediate_mType (c : CommandContext) (fi : Bool) :
    (maybeFlushImmediate c fi).m_Type = c.m_Type := by
  unfold maybeFlushImmediate; split <;> simp [flushResourceBarriers_mType]

theorem appendBarrier_mType (c : CommandContext) (b : ResourceBarrier) (fi : Bool) :
    (appendBarrier c b fi).m_Type = c.m_Type := by
  unfold appendBarrier
  rw [maybeFlushImmediate_mType]
  show (maybeFlushFull c).m_Type = c.m_Type
  exact maybeFlushFull_mType c

theorem transitionResource_mType (c : CommandContext) (r : GpuResource) (n : Nat) (fi : Bool) :
    (transitionResource c r n fi).ctx.m_Type = c.m_Type := by
  by_cases hv : validForQueue c.m_Type n = true
  · cases hr : r.m_TransitionState with
    | none =>
      by_cases hu : r.m_UsageState = n <;>
        simp [transitionResource, hv, hr, hu, appendBarrier_mType]
    | some s =>
      by_cases hs : s = n <;>
        simp [transitionResource, hv, hr, hs, appendBarrier_mType]
  · simp [transitionResource, hv]

theorem transitionResource_usage (c : CommandContext) (r : GpuResource) (n : Nat) (fi : Bool)
    (hv : validForQueue c.m_Type n = true) :
    (transitionResource c r n fi).res.m_UsageState = n := by
  cases hr : r.m_TransitionState with
  | none =>
    by_cases hu : r.m_UsageState = n <;>
      simp [transitionResource, hv, hr, hu]
  | some s =>
    by_cases hs : s = n <;>
      simp [transitionResource, hv, hr, hs]

/-! ## Claim theorems -/

/-- C1: for every sequence of TransitionResource calls on one context
between flush points, with at most the 16-entry buffer capacity of calls,
after the last call the resource's authoritative state field m_UsageState
equals the state requested in that last call (eager bookkeeping, even
though the GPU-visible barrier has not yet been submitted). -/
theorem c1_transitionResource_eager_bookkeeping
    (c : CommandContext) (r : GpuResource) (calls : List (Nat × Bool)) (n : Nat) (fi : Bool)
    (hlast : calls.getLast? = some (n, fi))
    (hlen : calls.length ≤ 16)
    (hvalid : ∀ x ∈ calls, validForQueue c.m_Type x.1 = true) :
    (runTransitions c r calls).2.m_UsageState = n := by
  induction calls generalizing c r with
  | nil => simp at hlast
  | cons x xs ih =>
    cases xs with
    | nil =>
      have hx : x = (n, fi) := by simpa using hlast
      subst hx
      simp only [runTransitions]
      exact transitionResource_usage c r n fi (hvalid (n, fi) (by simp))
    | cons y ys =>
      rw [List.getLast?_cons_cons] at hlast
      simp only [runTransitions]
      refine ih _ _ hlast (Nat.le_trans (Nat.le_succ _) hlen) ?_
      intro z hz
      rw [transitionResource_mType]
      exact hvalid z (List.mem_cons_of_mem x hz)

/-- C1 witness: a direct-queue context, a resource starting in COMMON, and
the two calls RENDER_TARGET then UNORDERED_ACCESS leave the resource's
authoritative state at UNORDERED_ACCESS. -/
theorem c1_transitionResource_eager_bookkeeping_witness :
    ([((4 : Nat), false), ((8 : Nat), false)]).getLast? = some ((8 : Nat), false) ∧
    ([((4 : Nat), false), ((8 : Nat), false)]).length ≤ 16 ∧
    (∀ x ∈ [((4 : Nat), false), ((8 : Nat), false)],
      validForQueue (CommandContext.create 0).m_Type x.1 = true) ∧
    (runTransitions (CommandContext.create 0) ⟨0, 0, none⟩
      [((4 : Nat), false), ((8 : Nat), false)]).2.m_UsageState = 8 :=
  ⟨by decide, by decide, by decide,
   c1_transitionResource_eager_bookkeeping (CommandContext.create 0) ⟨0, 0, none⟩
     [((4 : Nat), false), ((8 : Nat), false)] 8 false (by decide) (by decide) (by decide)⟩

/-- C2: with 16 pending barriers buffered, a TransitionResource call that
appends (an end-split or a genuine full transition) in batching mode
triggers exactly one internal flush — submitting all 16 buffered barriers
as one batch and clearing the buffer — before the append, so that
afterward exactly 1 entry is buffered; overflow is never surfaced as an
error. -/
theorem c2_barrier_overflow_flush (c : CommandContext) (r : GpuResource) (n : Nat)
    (hful : c.m_ResourceBarrierBuffer.length = 16)
    (hv : validForQueue c.m_Type n = true)
    (happend : r.m_TransitionState = some n ∨
      (r.m_TransitionState = none ∧ ¬ r.m_UsageState = n)) :
    (transitionResource c r n false).err = none ∧
    (transitionResource c r n false).ctx.flushedBatches
      = c.flushedBatches ++ [c.m_ResourceBarrierBuffer] ∧
    (transitionResource c r n false).ctx.m_ResourceBarrierBuffer.length = 1 := by
  have hne : c.m_ResourceBarrierBuffer ≠ [] := by
    intro h
    rw [h] at hful
    simp at hful
  rcases happend with hsome | ⟨hnone, hu⟩
  · simp [transitionResource, hv, hsome, appendBarrier, maybeFlushImmediate,
      pushBarrier, maybeFlushFull, hful, flushResourceBarriers, hne]
  · simp [transitionResource, hv, hnone, hu, appendBarrier, maybeFlushImmediate,
      pushBarrier, maybeFlushFull, hful, flushResourceBarriers, hne]

/-- A sample barrier entry, used by concrete instantiations. -/
def exBarrier : ResourceBarrier := ⟨0, 0, 4, BarrierMode.full⟩

/-- A direct-queue context whose barrier buffer holds 16 pending entries. -/
def exCtx16 : CommandContext :=
  ⟨0, "", true, none, List.replicate 16 exBarrier, [], none, 0⟩

/-- C2 witness: on a context with 16 buffered barriers, requesting
UNORDERED_ACCESS for a resource in COMMON submits the 16 entries as one
batch and leaves exactly 1 entry buffered, with no error. -/
theorem c2_barrier_overflow_flush_witness :
    exCtx16.m_ResourceBarrierBuffer.length = 16 ∧
    validForQueue exCtx16.m_Type 8 = true ∧
    ((⟨1, 0, none⟩ : GpuResource).m_TransitionState = some 8 ∨
      ((⟨1, 0, none⟩ : GpuResource).m_TransitionState = none ∧
        ¬ (⟨1, 0, none⟩ : GpuResource).m_UsageState = 8)) ∧
    ((transitionResource exCtx16 ⟨1, 0, none⟩ 8 false).err = none ∧
     (transitionResource exCtx16 ⟨1, 0, none⟩ 8 false).ctx.flushedBatches
       = exCtx16.flushedBatches ++ [exCtx16.m_ResourceBarrierBuffer] ∧
     (transitionResource exCtx16 ⟨1, 0, none⟩ 8 false).ctx.m_ResourceBarrierBuffer.length = 1) :=
  ⟨by decide, by decide, by decide,
   c2_barrier_overflow_flush exCtx16 ⟨1, 0, none⟩ 8 (by decide) (by decide) (by decide)⟩

/-- C3: a TransitionResource call whose requested state is not legal for
the context's queue type fails with UnsupportedTransition and leaves the
context (barrier buffer and pending count included) and the resource
unmodified — atomicity on error. -/
theorem c3_unsupportedTransition_atomic (c : CommandContext) (r : GpuResource)
    (n : Nat) (fi : Bool)
    (hinv : validForQueue c.m_Type n = false) :
    transitionResource c r n fi = ⟨c, r, some TransitionError.unsupportedTransition⟩ := by
  simp [transitionResource, hinv]

/-- C3 witness: on a Copy-type context, requesting UNORDERED_ACCESS fails
with UnsupportedTransition and changes nothing. -/
theorem c3_unsupportedTransition_atomic_witness :
    validForQueue (CommandContext.create D3D12_COMMAND_LIST_TYPE_COPY).m_Type
      D3D12_RESOURCE_STATE_UNORDERED_ACCESS = false ∧
    transitionResource (CommandContext.create D3D12_COMMAND_LIST_TYPE_COPY) ⟨0, 0, none⟩
      D3D12_RESOURCE_STATE_UNORDERED_ACCESS true
      = ⟨CommandContext.create D3D12_COMMAND_LIST_TYPE_COPY, ⟨0, 0, none⟩,
         some TransitionError.unsupportedTransition⟩ :=
  ⟨by decide,
   c3_unsupportedTransition_atomic (CommandContext.create D3D12_COMMAND_LIST_TYPE_COPY)
     ⟨0, 0, none⟩ D3D12_RESOURCE_STATE_UNORDERED_ACCESS true (by decide)⟩

/-- C4: the split-barrier invariant and the two special cases of
TransitionResource.  (a) No operation opens a split: a resource whose
m_TransitionState is empty still has it empty after any TransitionResource
call.  (b) A call whose newState equals the open m_TransitionState emits
an EndSplit entry, clears m_TransitionState and sets the authoritative
state to the target.  (c) A call whose newState equals the current
authoritative state with no split pending is a no-op leaving context
(barrier buffer count included) and resource unchanged. -/
theorem c4_split_invariant_endSplit_noop (c : CommandContext) (r : GpuResource)
    (n : Nat) (fi : Bool) :
    (r.m_TransitionState = none →
      (transitionResource c r n fi).res.m_TransitionState = none) ∧
    (r.m_TransitionState = some n → validForQueue c.m_Type n = true → fi = false →
      c.m_ResourceBarrierBuffer.length < 16 →
      (transitionResource c r n fi).err = none ∧
      (transitionResource c r n fi).res.m_TransitionState = none ∧
      (transitionResource c r n fi).res.m_UsageState = n ∧
      (transitionResource c r n fi).ctx.m_ResourceBarrierBuffer
        = c.m_ResourceBarrierBuffer ++ [⟨r.resId, r.m_UsageState, n, BarrierMode.endSplit⟩]) ∧
    (r.m_TransitionState = none → r.m_UsageState = n →
      validForQueue c.m_Type n = true →
      transitionResource c r n fi = ⟨c, r, none⟩) := by
  refine ⟨?_, ?_, ?_⟩
  · intro hnone
    by_cases hv : validForQueue c.m_Type n = true
    · by_cases hu : r.m_UsageState = n <;>
        simp [transitionResource, hv, hnone, hu]
    · simp [transitionResource, hv, hnone]
  · intro hsome hv hfi hlen
    subst hfi
    have hlen2 : ¬ 16 ≤ c.m_ResourceBarrierBuffer.length := by omega
    simp [transitionResource, hv, hsome, appendBarrier, maybeFlushImmediate,
      pushBarrier, maybeFlushFull, hlen2]
  · intro hnone hu hv
    simp [transitionResource, hv, hnone, hu]

/-- C4 witness: (a)+(c) a resource in UNORDERED_ACCESS with no split, asked
again for UNORDERED_ACCESS, is untouched; (b) a resource with an open split
towards UNORDERED_ACCESS gets an EndSplit entry, a cleared
m_TransitionState and authoritative state UNORDERED_ACCESS. -/
theorem c4_split_invariant_endSplit_noop_witness :
    ((transitionResource (CommandContext.create 0) ⟨0, 8, none⟩ 8 true).res.m_TransitionState
       = none) ∧
    ((transitionResource (CommandContext.create 0) ⟨0, 4, some 8⟩ 8 false).err = none ∧
     (transitionResource (CommandContext.create 0) ⟨0, 4, some 8⟩ 8 false).res.m_TransitionState
       = none ∧
     (transitionResource (CommandContext.create 0) ⟨0, 4, some 8⟩ 8 false).res.m_UsageState = 8 ∧
     (transitionResource (CommandContext.create 0) ⟨0, 4, some 8⟩ 8 false).ctx.m_ResourceBarrierBuffer
       = (CommandContext.create 0).m_ResourceBarrierBuffer
         ++ [⟨0, 4, 8, BarrierMode.endSplit⟩]) ∧
    transitionResource (CommandContext.create 0) ⟨0, 8, none⟩ 8 true
      = ⟨CommandContext.create 0, ⟨0, 8, none⟩, none⟩ :=
  ⟨(c4_split_invariant_endSplit_noop (CommandContext.create 0) ⟨0, 8, none⟩ 8 true).1 rfl,
   (c4_split_invariant_endSplit_noop (CommandContext.create 0) ⟨0, 4, some 8⟩ 8 false).2.1
     rfl (by decide) rfl (by decide),
   (c4_split_invariant_endSplit_noop (CommandContext.create 0) ⟨0, 8, none⟩ 8 true).2.2
     rfl rfl (by decide)⟩

/-! ## Pool helper lemmas -/

theorem allocate_empty_eq (st : CommandContextManager) (type : Nat) (h4 : type < 4)
    (hempty : st.m_AvailableCommandContexts ⟨type, h4⟩ = []) :
    AllocateCommandContext st type = some
      ({ st with
          m_CommandContextPool :=
            Function.update st.m_CommandContextPool ⟨type, h4⟩
              (st.m_CommandContextPool ⟨type, h4⟩ ++ [st.nextId]),
          contexts := fun n => if n = st.nextId
            then some ((CommandContext.create type).Initialize st.nextId)
            else st.contexts n,
          nextId := st.nextId + 1 }, st.nextId) := by
  simp only [AllocateCommandContext, dif_pos h4, hempty]

theorem allocate_pop_eq (st : CommandContextManager) (type : Nat) (h4 : type < 4)
    (cid : Nat) (rest : List Nat) (c : CommandContext)
    (havail : st.m_AvailableCommandContexts ⟨type, h4⟩ = cid :: rest)
    (hc : st.contexts cid = some c) :
    AllocateCommandContext st type = some
      ({ st with
          m_AvailableCommandContexts :=
            Function.update st.m_AvailableCommandContexts ⟨type, h4⟩ rest,
          contexts := fun n => if n = cid then some c.Reset else st.contexts n }, cid) := by
  simp only [AllocateCommandContext, dif_pos h4, havail, hc]

theorem free_eq (st : CommandContextManager) (cid : Nat) (c : CommandContext)
    (hc : st.contexts cid = some c) (h4 : c.m_Type < 4) :
    FreeCommandContext st cid = some
      { st with
          m_AvailableCommandContexts :=
            Function.update st.m_AvailableCommandContexts ⟨c.m_Type, h4⟩
              (st.m_AvailableCommandContexts ⟨c.m_Type, h4⟩ ++ [cid]) } := by
  simp only [FreeCommandContext, hc, dif_pos h4]

theorem allocate_returns_type (st : CommandContextManager) (type : Nat)
    (st1 : CommandContextManager) (cid : Nat) (hwf : MgrWF st)
    (h : AllocateCommandContext st type = some (st1, cid)) :
    ∃ c, st1.contexts cid = some c ∧ c.m_Type = type := by
  by_cases h4 : type < 4
  · cases havail : st.m_AvailableCommandContexts ⟨type, h4⟩ with
    | nil =>
      rw [allocate_empty_eq st type h4 havail] at h
      simp only [Option.some.injEq, Prod.mk.injEq] at h
      obtain ⟨h1, h2⟩ := h
      subst h1
      subst h2
      exact ⟨(CommandContext.create type).Initialize st.nextId, by simp, rfl⟩
    | cons cid0 rest =>
      obtain ⟨c, hc, htype⟩ := hwf ⟨type, h4⟩ cid0 (by rw [havail]; exact List.mem_cons_self _ _)
      rw [allocate_pop_eq st type h4 cid0 rest c havail hc] at h
      simp only [Option.some.injEq, Prod.mk.injEq] at h
      obtain ⟨h1, h2⟩ := h
      subst h1
      subst h2
      exact ⟨c.Reset, by simp, htype⟩
  · rw [AllocateCommandContext.eq_def, dif_neg h4] at h
    cases h

/-- C5: for a recognized queueType, AllocateCommandContext with a
non-empty idle queue pops its front context and applies Reset to it, and
with an empty idle queue constructs exactly one new context (registered in
the owning pool for that type, with Initialize applied); in both cases the
returned context has the requested type. -/
theorem c5_allocateCommandContext_spec (st : CommandContextManager) (type : Nat)
    (hwf : MgrWF st) (h4 : type < 4) :
    (st.m_AvailableCommandContexts ⟨type, h4⟩ = [] →
      ∃ st1, AllocateCommandContext st type = some (st1, st.nextId) ∧
        st1.m_CommandContextPool ⟨type, h4⟩
          = st.m_CommandContextPool ⟨type, h4⟩ ++ [st.nextId] ∧
        st1.contexts st.nextId
          = some ((CommandContext.create type).Initialize st.nextId) ∧
        ((CommandContext.create type).Initialize st.nextId).m_Type = type ∧
        ((CommandContext.create type).Initialize st.nextId).m_CommandList = true) ∧
    (∀ cid rest, st.m_AvailableCommandContexts ⟨type, h4⟩ = cid :: rest →
      ∃ st1 c, st.contexts cid = some c ∧
        AllocateCommandContext st type = some (st1, cid) ∧
        st1.m_AvailableCommandContexts ⟨type, h4⟩ = rest ∧
        st1.contexts cid = some c.Reset ∧
        c.m_Type = type) := by
  constructor
  · intro hempty
    refine ⟨_, allocate_empty_eq st type h4 hempty, ?_, ?_, rfl, rfl⟩
    · simp [Function.update_same]
    · simp
  · intro cid rest havail
    obtain ⟨c, hc, htype⟩ := hwf ⟨type, h4⟩ cid (by rw [havail]; exact List.mem_cons_self _ _)
    refine ⟨_, c, hc, allocate_pop_eq st type h4 cid rest c havail hc, ?_, ?_, htype⟩
    · simp [Function.update_same]
    · simp

theorem emptyMgr_wf : MgrWF emptyMgr := by
  intro t cid h
  exact absurd h (by simp [emptyMgr])

/-- A manager owning one direct-queue context (id 0) sitting in the
direct idle queue. -/
def exMgr1 : CommandContextManager :=
  ⟨fun _ => [0],
   fun t => if t.val = 0 then [0] else [],
   fun n => if n = 0 then some (CommandContext.create 0) else none,
   1⟩

theorem exMgr1_wf : MgrWF exMgr1 := by
  intro t cid h
  by_cases ht : t.val = 0
  · simp only [exMgr1, ht, if_pos, List.mem_singleton] at h
    subst h
    exact ⟨CommandContext.create 0, by simp [exMgr1], by simp [CommandContext.create, ht]⟩
  · simp [exMgr1, ht] at h

/-- C5 witness: on the empty manager a fresh direct context (id 0) is
constructed, registered and Initialized; on a manager whose direct idle
queue holds context 0, that context is popped and Reset. -/
theorem c5_allocateCommandContext_spec_witness :
    (∃ st1, AllocateCommandContext emptyMgr 0 = some (st1, emptyMgr.nextId) ∧
      st1.m_CommandContextPool ⟨0, by norm_num⟩
        = emptyMgr.m_CommandContextPool ⟨0, by norm_num⟩ ++ [emptyMgr.nextId] ∧
      st1.contexts emptyMgr.nextId
        = some ((CommandContext.create 0).Initialize emptyMgr.nextId) ∧
      ((CommandContext.create 0).Initialize emptyMgr.nextId).m_Type = 0 ∧
      ((CommandContext.create 0).Initialize emptyMgr.nextId).m_CommandList = true) ∧
    (∃ st1 c, exMgr1.contexts 0 = some c ∧
      AllocateCommandContext exMgr1 0 = some (st1, 0) ∧
      st1.m_AvailableCommandContexts ⟨0, by norm_num⟩ = [] ∧
      st1.contexts 0 = some c.Reset ∧
      c.m_Type = 0) :=
  ⟨(c5_allocateCommandContext_spec emptyMgr 0 emptyMgr_wf (by norm_num)).1 rfl,
   (c5_allocateCommandContext_spec exMgr1 0 exMgr1_wf (by norm_num)).2 0 [] rfl⟩

/-- A used direct-queue context with a dirty barrier buffer, an attached
allocator, a bound pipeline state and a non-zero arena cursor. -/
def exCtxDirty : CommandContext := ⟨0, "x", true, some 5, [exBarrier], [], some 7, 9⟩

/-- A manager owning the dirty context (id 0), currently handed out: all
idle queues are empty. -/
def exMgrC6 : CommandContextManager :=
  ⟨fun _ => [0], fun _ => [], fun n => if n = 0 then some exCtxDirty else none, 1⟩

/-- C6: freeing a context into its type's otherwise-empty idle queue and
then allocating the same type returns that same context, with Reset
applied before it is handed back — and Reset clears the barrier buffer,
detaches the allocator reference, clears the bound pipeline-state
reference and resets the dynamic arena cursor. -/
theorem c6_free_allocate_roundtrip (st : CommandContextManager) (cid : Nat)
    (c : CommandContext) (hc : st.contexts cid = some c) (h4 : c.m_Type < 4)
    (hempty : st.m_AvailableCommandContexts ⟨c.m_Type, h4⟩ = []) :
    ∃ st1 st2, FreeCommandContext st cid = some st1 ∧
      AllocateCommandContext st1 c.m_Type = some (st2, cid) ∧
      st2.contexts cid = some c.Reset ∧
      c.Reset.m_ResourceBarrierBuffer = [] ∧
      c.Reset.m_CurrentAllocator = none ∧
      c.Reset.m_curPSO = none ∧
      c.Reset.dynamicCursor = 0 := by
  have hF := free_eq st cid c hc h4
  have havail1 : ({ st with
      m_AvailableCommandContexts :=
        Function.update st.m_AvailableCommandContexts ⟨c.m_Type, h4⟩
          (st.m_AvailableCommandContexts ⟨c.m_Type, h4⟩ ++ [cid]) } :
      CommandContextManager).m_AvailableCommandContexts ⟨c.m_Type, h4⟩ = cid :: [] := by
    simp [Function.update_same, hempty]
  have hA := allocate_pop_eq _ c.m_Type h4 cid [] c havail1 hc
  exact ⟨_, _, hF, hA, by simp, rfl, rfl, rfl, rfl⟩

/-- C6 witness: freeing dirty context 0 into the empty direct idle queue
and allocating a direct context again returns context 0 with Reset
applied. -/
theorem c6_free_allocate_roundtrip_witness :
    exMgrC6.contexts 0 = some exCtxDirty ∧
    exCtxDirty.m_Type < 4 ∧
    (∃ st1 st2, FreeCommandContext exMgrC6 0 = some st1 ∧
      AllocateCommandContext st1 exCtxDirty.m_Type = some (st2, 0) ∧
      st2.contexts 0 = some exCtxDirty.Reset ∧
      exCtxDirty.Reset.m_ResourceBarrierBuffer = [] ∧
      exCtxDirty.Reset.m_CurrentAllocator = none ∧
      exCtxDirty.Reset.m_curPSO = none ∧
      exCtxDirty.Reset.dynamicCursor = 0) :=
  ⟨rfl, by decide,
   c6_free_allocate_roundtrip exMgrC6 0 exCtxDirty rfl (by decide) rfl⟩

/-- C7: the source performs no validation of the queue type.
AllocateCommandContext indexes the 4-entry arrays m_AvailableCommandContexts
and m_CommandContextPool with the raw type value, so an unrecognized type
(here 4, e.g. D3D12_COMMAND_LIST_TYPE_VIDEO_DECODE) is an out-of-bounds
access — undefined behavior, modelled as none — and no InvalidArgument
error is produced, contrary to the specification. -/
theorem c7_unrecognized_type_out_of_bounds :
    AllocateCommandContext emptyMgr 4 = none := rfl

/-- C10: for every call to Begin, regardless of the label, the context
handed out is allocated from the pool for the
D3D12_COMMAND_LIST_TYPE_DIRECT (graphics) queue type and carries the given
label; Begin never yields a compute, copy or bundle context. -/
theorem c10_begin_direct_type (st : CommandContextManager) (label : String)
    (st1 : CommandContextManager) (cid : Nat) (hwf : MgrWF st)
    (h : CommandContext.Begin label st = some (st1, cid)) :
    ∃ c, st1.contexts cid = some c ∧
      c.m_Type = D3D12_COMMAND_LIST_TYPE_DIRECT ∧ c.m_ID = label := by
  rw [CommandContext.Begin.eq_def] at h
  cases hA : AllocateCommandContext st D3D12_COMMAND_LIST_TYPE_DIRECT with
  | none => rw [hA] at h; cases h
  | some p =>
    obtain ⟨stA, cidA⟩ := p
    obtain ⟨c, hcA, htype⟩ := allocate_returns_type st _ stA cidA hwf hA
    rw [hA] at h
    simp only [hcA] at h
    simp only [Option.some.injEq, Prod.mk.injEq] at h
    obtain ⟨h1, h2⟩ := h
    subst h1
    subst h2
    exact ⟨{ c with m_ID := label }, by simp, htype, rfl⟩

/-- The manager state produced by a first Begin on the empty manager. -/
def exMgrAfterBegin : CommandContextManager :=
  ((CommandContext.Begin "main" emptyMgr).getD (emptyMgr, 0)).1

/-- C10 witness: the first Begin on the empty manager hands out context 0,
a direct-queue context labelled with the given id. -/
theorem c10_begin_direct_type_witness :
    MgrWF emptyMgr ∧
    CommandContext.Begin "main" emptyMgr = some (exMgrAfterBegin, 0) ∧
    (∃ c, exMgrAfterBegin.contexts 0 = some c ∧
      c.m_Type = D3D12_COMMAND_LIST_TYPE_DIRECT ∧ c.m_ID = "main") :=
  ⟨emptyMgr_wf, rfl,
   c10_begin_direct_type emptyMgr "main" exMgrAfterBegin 0 emptyMgr_wf rfl⟩

/-! ## Fence monotonicity -/

theorem submission_step_snd (s : CommandContext × Bool) (q : CommandQueue) :
    (if s.2 then s.1.Finish q true else s.1.Flush q).2
      = (⟨q.lastFenceValue + 1⟩, q.lastFenceValue + 1) := by
  cases s.2 <;> rfl

theorem submissionFences_gt (subs : List (CommandContext × Bool)) (q : CommandQueue) :
    ∀ f ∈ submissionFences q subs, q.lastFenceValue < f := by
  induction subs generalizing q with
  | nil => intro f hf; simp [submissionFences] at hf
  | cons s rest ih =>
    intro f hf
    simp only [submissionFences] at hf
    rw [submission_step_snd] at hf
    rcases List.mem_cons.mp hf with hf | hf
    · omega
    · have := ih ⟨q.lastFenceValue + 1⟩ f hf
      simp at this
      omega

/-- C8: submissions on one queue — Flush as well as Finish — return
strictly increasing fence values: every fence value returned by a later
submission is strictly greater than every fence value returned earlier for
the same queue. -/
theorem c8_fence_strictly_increasing (q : CommandQueue)
    (subs : List (CommandContext × Bool)) :
    List.Pairwise (fun a b => a < b) (submissionFences q subs) := by
  induction subs generalizing q with
  | nil => simp [submissionFences]
  | cons s rest ih =>
    simp only [submissionFences]
    rw [submission_step_snd]
    refine List.Pairwise.cons ?_ (ih ⟨q.lastFenceValue + 1⟩)
    intro b hb
    have := submissionFences_gt rest ⟨q.lastFenceValue + 1⟩ b hb
    simpa using this

end DX12Engine
